import Mathlib

/-!
Shallow embedding of the ecosystem-visualization repository's core logic
(filtering, sorting, relationship index, highlight model, tooltips and
detail view) together with proofs of the specification's claims.

Sources embedded:
  - src/unnamed/part_000 (list view: filterAndRender, clearFilters,
    getOrganizationRelationships, showOrganizationDetails, colorScheme)
  - src/script.js (graph view: filterNodes, highlightConnections,
    removeHighlighting, showTooltip, toggleLabels handler, colorScheme)
  - src/unnamed/part_001 (older graph-view variant: showTooltip without an
    "Unknown" fallback, colorScheme)

Strings are modelled by Lean `String`; JavaScript `toLowerCase` by
character-wise `Char.toLower`; `String.prototype.includes` by a decidable
infix test on the character lists; opacities (JS numbers 0, 0.1, 0.3, 0.6,
1) by `ℚ`.
-/

namespace EcoViz

/-- Organization record, after the object shape read from
`organizations.json` (fields used by the code; `tags` is optional). -/
structure Organization where
  id : String
  name : String
  type : String
  contactPerson : String
  email : String
  phone : String
  website : String
  address : String
  description : String
  tags : Option (List String)
deriving DecidableEq, Repr

/-- Relationship record from `organizations.json`: `source` and `target`
are organization ids. -/
structure Relationship where
  source : String
  target : String
  type : String
  description : String
deriving DecidableEq, Repr

/-- Mutable view state of the UI (spec §2): the list view's module-level
variables `searchTerm`, `typeFilter`, `sortBy` (part_000 lines 5-7) and the
graph view's `showLabels` flag (script.js line 5). `searchTerm` holds the
already-lowercased input, as stored by the input handler
(`searchTerm = e.target.value.toLowerCase()`). -/
structure ViewState where
  searchTerm : String
  typeFilter : String
  sortBy : String
  showLabels : Bool
deriving DecidableEq, Repr

/-- JavaScript `s.toLowerCase()`: lowercase each character (the host's
Unicode lowercasing modelled by `Char.toLower` on the character list). -/
def jsToLower (s : String) : String :=
  String.mk (s.toList.map Char.toLower)

/-- JavaScript `s.includes(sub)`: `sub` occurs contiguously in `s`. -/
def jsIncludes (s sub : String) : Bool :=
  decide (sub.toList <:+: s.toList)

/-- Tag clause of the search predicate, part_000 line 111 and script.js
line 475: `org.tags && org.tags.some(tag => tag.toLowerCase().includes(searchTerm))`.
An absent `tags` field is falsy in JS, so the clause is false. -/
def matchesTags (term : String) (org : Organization) : Bool :=
  match org.tags with
  | some tags => tags.any (fun tag => jsIncludes (jsToLower tag) term)
  | none => false

/-- Search predicate shared verbatim by part_000 `filterAndRender`
(lines 105-111) and script.js `filterNodes` (lines 468-475): the term is
empty, or it occurs in the lowercased name, contactPerson, email,
description, address, or some tag. -/
def matchesSearch (term : String) (org : Organization) : Bool :=
  term == "" ||
  jsIncludes (jsToLower org.name) term ||
  jsIncludes (jsToLower org.contactPerson) term ||
  jsIncludes (jsToLower org.email) term ||
  jsIncludes (jsToLower org.description) term ||
  jsIncludes (jsToLower org.address) term ||
  matchesTags term org

/-- Type predicate of part_000 line 113: `!typeFilter || org.type === typeFilter`. -/
def matchesType (typeFilter : String) (org : Organization) : Bool :=
  typeFilter == "" || org.type == typeFilter

/-- Filter step of part_000 `filterAndRender` (lines 104-116):
keep organizations that match both the search term and the type filter. -/
def filterOrgs (orgs : List Organization) (st : ViewState) : List Organization :=
  orgs.filter (fun org => matchesSearch st.searchTerm org && matchesType st.typeFilter org)

/-- Relationship index, part_000 `getOrganizationRelationships`
(lines 244-248): all relationships in which the id appears as source or
target. -/
def getOrganizationRelationships (rels : List Relationship) (orgId : String) : List Relationship :=
  rels.filter (fun rel => rel.source == orgId || rel.target == orgId)

theorem matchesTags_eq_true_iff (term : String) (org : Organization) :
    matchesTags term org = true ↔
      ∃ tags, org.tags = some tags ∧ ∃ tag ∈ tags, jsIncludes (jsToLower tag) term = true := by
  unfold matchesTags
  cases h : org.tags with
  | none => simp
  | some tags => simp [List.any_eq_true]

theorem matchesSearch_eq_true_iff (term : String) (org : Organization) :
    matchesSearch term org = true ↔
      (term = "" ∨
        jsIncludes (jsToLower org.name) term = true ∨
        jsIncludes (jsToLower org.contactPerson) term = true ∨
        jsIncludes (jsToLower org.email) term = true ∨
        jsIncludes (jsToLower org.description) term = true ∨
        jsIncludes (jsToLower org.address) term = true ∨
        ∃ tags, org.tags = some tags ∧ ∃ tag ∈ tags, jsIncludes (jsToLower tag) term = true) := by
  unfold matchesSearch
  simp only [Bool.or_eq_true, beq_iff_eq, matchesTags_eq_true_iff]
  tauto

theorem matchesType_eq_true_iff (typeFilter : String) (org : Organization) :
    matchesType typeFilter org = true ↔ (typeFilter = "" ∨ org.type = typeFilter) := by
  unfold matchesType
  simp only [Bool.or_eq_true, beq_iff_eq]

/-- C1. The filter step admits an organization iff (a) the type filter is
empty or equals its `type`, and (b) the search term is empty or occurs in
the lowercased name, contactPerson, email, description, address, or some
tag; an organization without `tags` is handled totally and fails exactly
the tag clause; the output is a subset of the input (hence, when the term
is non-empty, every output element matches it by the iff). -/
theorem filter_admission_spec (orgs : List Organization) (st : ViewState) (org : Organization) :
    (org ∈ filterOrgs orgs st ↔
      org ∈ orgs ∧
      (st.typeFilter = "" ∨ org.type = st.typeFilter) ∧
      (st.searchTerm = "" ∨
        jsIncludes (jsToLower org.name) st.searchTerm = true ∨
        jsIncludes (jsToLower org.contactPerson) st.searchTerm = true ∨
        jsIncludes (jsToLower org.email) st.searchTerm = true ∨
        jsIncludes (jsToLower org.description) st.searchTerm = true ∨
        jsIncludes (jsToLower org.address) st.searchTerm = true ∨
        ∃ tags, org.tags = some tags ∧ ∃ tag ∈ tags, jsIncludes (jsToLower tag) st.searchTerm = true)) ∧
    (org.tags = none →
      (matchesTags st.searchTerm org = false ∧
        matchesSearch st.searchTerm org =
          (st.searchTerm == "" ||
           jsIncludes (jsToLower org.name) st.searchTerm ||
           jsIncludes (jsToLower org.contactPerson) st.searchTerm ||
           jsIncludes (jsToLower org.email) st.searchTerm ||
           jsIncludes (jsToLower org.description) st.searchTerm ||
           jsIncludes (jsToLower org.address) st.searchTerm))) ∧
    (org ∈ filterOrgs orgs st → org ∈ orgs) := by
  refine ⟨?_, ?_, ?_⟩
  · rw [filterOrgs, List.mem_filter, Bool.and_eq_true,
      matchesSearch_eq_true_iff, matchesType_eq_true_iff]
    tauto
  · intro hnone
    constructor
    · rw [matchesTags, hnone]
    · rw [matchesSearch, matchesTags, hnone, Bool.or_false]
  · intro hmem
    exact (List.mem_filter.mp hmem).1

/-- C1 witness: a concrete organization without tags passes a non-empty
search on its name and is admitted. -/
theorem filter_admission_spec_witness :
    (Organization.mk "A" "Acme Corp" "corporation" "Ann Smith" "ann@acme.example" "555" "https://acme.example" "1 Main St" "Widgets" none).tags = none ∧
    Organization.mk "A" "Acme Corp" "corporation" "Ann Smith" "ann@acme.example" "555" "https://acme.example" "1 Main St" "Widgets" none ∈
      filterOrgs [Organization.mk "A" "Acme Corp" "corporation" "Ann Smith" "ann@acme.example" "555" "https://acme.example" "1 Main St" "Widgets" none]
        (ViewState.mk "acme" "" "name" true) := by
  constructor
  · rfl
  · exact ((filter_admission_spec
      [Organization.mk "A" "Acme Corp" "corporation" "Ann Smith" "ann@acme.example" "555" "https://acme.example" "1 Main St" "Widgets" none]
      (ViewState.mk "acme" "" "name" true)
      (Organization.mk "A" "Acme Corp" "corporation" "Ann Smith" "ann@acme.example" "555" "https://acme.example" "1 Main St" "Widgets" none)).1).mpr
      (by refine ⟨by decide, by decide, Or.inr (Or.inl ?_)⟩; decide)

/-- C3. The relationship index returns exactly the relationships whose
source or target is the given id, and is symmetric: any relationship is in
the index of its own source and of its own target. -/
theorem relationshipsOf_spec (rels : List Relationship) (orgId : String) (rel : Relationship) :
    (rel ∈ getOrganizationRelationships rels orgId ↔
      rel ∈ rels ∧ (rel.source = orgId ∨ rel.target = orgId)) ∧
    (rel ∈ getOrganizationRelationships rels rel.source ↔ rel ∈ rels) ∧
    (rel ∈ getOrganizationRelationships rels rel.target ↔ rel ∈ rels) := by
  have h : ∀ id : String, rel ∈ getOrganizationRelationships rels id ↔
      rel ∈ rels ∧ (rel.source = id ∨ rel.target = id) := by
    intro id
    rw [getOrganizationRelationships, List.mem_filter]
    simp only [Bool.or_eq_true, beq_iff_eq]
  refine ⟨h orgId, ?_, ?_⟩
  · rw [h rel.source]
    tauto
  · rw [h rel.target]
    tauto

/-- Models JavaScript `a.localeCompare(b)` as an `Ordering`. The host
locale's collation is modelled by the lexicographic linear order on
`String`; the properties proved below use only that it is a total order. -/
def localeCompare (a b : String) : Ordering :=
  if a < b then Ordering.lt else if a = b then Ordering.eq else Ordering.gt

/-- JS `Array.prototype.sort` places `a` no later than `b` when the
comparator returns a non-positive number, i.e. when `localeCompare` is not
`gt`. -/
def strLe (a b : String) : Bool :=
  !(localeCompare a b == Ordering.gt)

theorem strLe_iff (a b : String) : strLe a b = true ↔ a ≤ b := by
  unfold strLe localeCompare
  split_ifs with hlt heq
  · simp only [show (!(Ordering.lt == Ordering.gt)) = true by decide, true_iff]
    exact le_of_lt hlt
  · simp only [show (!(Ordering.eq == Ordering.gt)) = true by decide, true_iff]
    exact le_of_eq heq
  · simp only [show (!(Ordering.gt == Ordering.gt)) = false by decide,
      Bool.false_eq_true, false_iff]
    intro h
    exact hlt (lt_of_le_of_ne h heq)

theorem strLe_trans (a b c : String) (h1 : strLe a b = true) (h2 : strLe b c = true) :
    strLe a c = true :=
  (strLe_iff a c).mpr (le_trans ((strLe_iff a b).mp h1) ((strLe_iff b c).mp h2))

theorem strLe_total (a b : String) : (strLe a b || strLe b a) = true := by
  rcases le_total a b with h | h
  · simp [(strLe_iff a b).mpr h]
  · simp [(strLe_iff b a).mpr h]

/-- Comparator of part_000 `filterAndRender` (lines 119-130): a switch on
`sortBy` comparing the corresponding string field with `localeCompare`;
any other key compares everything equal (`default: return 0`). -/
def orgCompare (sortBy : String) (a b : Organization) : Ordering :=
  if sortBy == "name" then localeCompare a.name b.name
  else if sortBy == "type" then localeCompare a.type b.type
  else if sortBy == "contact" then localeCompare a.contactPerson b.contactPerson
  else Ordering.eq

/-- Boolean "not after" relation induced by the comparator. -/
def orgLe (sortBy : String) (a b : Organization) : Bool :=
  !(orgCompare sortBy a b == Ordering.gt)

/-- Sort step of part_000 `filterAndRender`: JS `Array.prototype.sort` is
required by ECMA-262 to be stable, modelled by a stable merge sort. -/
def sortOrgs (sortBy : String) (l : List Organization) : List Organization :=
  l.mergeSort (orgLe sortBy)

/-- Filter-and-sort engine of part_000 `filterAndRender` (lines 102-137),
restricted to its pure part (the DOM re-render is the caller's concern). -/
def filterAndRender (orgs : List Organization) (st : ViewState) : List Organization :=
  sortOrgs st.sortBy (filterOrgs orgs st)

/-- State reset of part_000 `clearFilters` (lines 333-344): searchTerm,
typeFilter and sortBy change together to their defaults in the one
function call that precedes the single `filterAndRender()` re-render. -/
def clearFilters (st : ViewState) : ViewState :=
  { st with searchTerm := "", typeFilter := "", sortBy := "name" }

theorem mergeSort_filter_key (key : Organization → String) (l : List Organization) (v : String) :
    ((l.mergeSort (fun a b => strLe (key a) (key b))).filter (fun o => key o == v)) =
      l.filter (fun o => key o == v) := by
  have htrans : ∀ a b c : Organization,
      strLe (key a) (key b) = true → strLe (key b) (key c) = true →
      strLe (key a) (key c) = true := fun a b c h1 h2 => strLe_trans _ _ _ h1 h2
  have htot : ∀ a b : Organization, (strLe (key a) (key b) || strLe (key b) (key a)) = true :=
    fun a b => strLe_total _ _
  have hpw : (l.filter (fun o => key o == v)).Pairwise
      (fun a b => strLe (key a) (key b) = true) := by
    apply List.pairwise_of_forall_mem_list
    intro a ha b hb
    have hka : key a = v := by simpa using (List.mem_filter.mp ha).2
    have hkb : key b = v := by simpa using (List.mem_filter.mp hb).2
    rw [hka, hkb]
    exact (strLe_iff v v).mpr le_rfl
  have hsub : (l.filter (fun o => key o == v)).Sublist
      (l.mergeSort (fun a b => strLe (key a) (key b))) :=
    List.sublist_mergeSort htrans htot hpw (List.filter_sublist l)
  have hsub2 : (l.filter (fun o => key o == v)).Sublist
      ((l.mergeSort (fun a b => strLe (key a) (key b))).filter (fun o => key o == v)) := by
    have h := List.Sublist.filter (fun o => key o == v) hsub
    have hidem : ((l.filter (fun o => key o == v)).filter (fun o => key o == v)) =
        l.filter (fun o => key o == v) := by
      apply List.filter_eq_self.mpr
      intro a ha
      exact (List.mem_filter.mp ha).2
    rwa [hidem] at h
  have hlen : ((l.mergeSort (fun a b => strLe (key a) (key b))).filter
      (fun o => key o == v)).length = (l.filter (fun o => key o == v)).length :=
    ((l.mergeSort_perm (fun a b => strLe (key a) (key b))).filter _).length_eq
  exact (hsub2.eq_of_length hlen.symm).symm

theorem orgLe_name : orgLe "name" = fun a b : Organization => strLe a.name b.name := by
  funext a b
  rfl

theorem orgLe_type : orgLe "type" = fun a b : Organization => strLe a.type b.type := by
  funext a b
  rfl

theorem orgLe_contact :
    orgLe "contact" = fun a b : Organization => strLe a.contactPerson b.contactPerson := by
  funext a b
  rfl

/-- C2. For each sortKey in {name, type, contact} the comparator compares
only the corresponding string field via `localeCompare`, and the sort is
stable: the elements whose sort-key field equals any given value appear in
the output in exactly their input order (so reordering the rest never
changes the relative order of tied elements). -/
theorem sort_locale_stable_spec (l : List Organization) (v : String) (a b : Organization) :
    (orgCompare "name" a b = localeCompare a.name b.name ∧
      (sortOrgs "name" l).filter (fun o => o.name == v) = l.filter (fun o => o.name == v)) ∧
    (orgCompare "type" a b = localeCompare a.type b.type ∧
      (sortOrgs "type" l).filter (fun o => o.type == v) = l.filter (fun o => o.type == v)) ∧
    (orgCompare "contact" a b = localeCompare a.contactPerson b.contactPerson ∧
      (sortOrgs "contact" l).filter (fun o => o.contactPerson == v) =
        l.filter (fun o => o.contactPerson == v)) := by
  refine ⟨⟨rfl, ?_⟩, ⟨rfl, ?_⟩, ⟨rfl, ?_⟩⟩
  · rw [sortOrgs, orgLe_name]
    exact mergeSort_filter_key Organization.name l v
  · rw [sortOrgs, orgLe_type]
    exact mergeSort_filter_key Organization.type l v
  · rw [sortOrgs, orgLe_contact]
    exact mergeSort_filter_key Organization.contactPerson l v

/-- C7. `clearFilters` resets searchTerm to "", typeFilter to "" and
sortBy to "name" together in its single state transition, and running the
filter/sort engine on the cleared state returns all organizations (a
permutation of the input containing exactly its elements) ordered
ascending by name under the locale comparator. -/
theorem clearFilters_spec (orgs : List Organization) (st : ViewState) :
    (clearFilters st).searchTerm = "" ∧
    (clearFilters st).typeFilter = "" ∧
    (clearFilters st).sortBy = "name" ∧
    (filterAndRender orgs (clearFilters st)).Perm orgs ∧
    (filterAndRender orgs (clearFilters st)).Pairwise
      (fun a b => localeCompare a.name b.name ≠ Ordering.gt) := by
  have hfilter : filterOrgs orgs (clearFilters st) = orgs := by
    apply List.filter_eq_self.mpr
    intro a _
    rfl
  have htrans : ∀ a b c : Organization,
      orgLe "name" a b = true → orgLe "name" b c = true → orgLe "name" a c = true := by
    rw [orgLe_name]
    exact fun a b c h1 h2 => strLe_trans _ _ _ h1 h2
  have htot : ∀ a b : Organization, (orgLe "name" a b || orgLe "name" b a) = true := by
    rw [orgLe_name]
    exact fun a b => strLe_total _ _
  refine ⟨rfl, rfl, rfl, ?_, ?_⟩
  · rw [filterAndRender, hfilter]
    exact List.mergeSort_perm orgs (orgLe "name")
  · rw [filterAndRender, hfilter]
    have hs := List.sorted_mergeSort htrans htot orgs
    refine hs.imp ?_
    intro a b hab
    have : strLe a.name b.name = true := by
      rw [orgLe_name] at hab
      exact hab
    intro hgt
    rw [strLe, hgt] at this
    exact absurd this (by decide)

/-- Neighbor ids one relationship hop away from `nodeId` (spec §4.2
`connectedNodeIds` contract), computed over the data-store relationships,
whose source/target are id strings: each relationship touching `nodeId`
contributes its other endpoint. -/
def connectedNodeIds (rels : List Relationship) (nodeId : String) : List String :=
  rels.filterMap (fun rel =>
    if rel.source == nodeId then some rel.target
    else if rel.target == nodeId then some rel.source
    else none)

/-- Derived visual state: opacity assigned to each node circle, link line
and node label. -/
structure OpacityState where
  node : Organization → ℚ
  link : Relationship → ℚ
  label : Organization → ℚ

/-- script.js `removeHighlighting` (lines 379-383): links 0.6, nodes 1,
labels back to the label-visibility opacity. -/
def removeHighlighting (showLabels : Bool) : OpacityState where
  node := fun _ => 1
  link := fun _ => 0.6
  label := fun _ => if showLabels then 1 else 0

/-- Runtime shape of a relationship in the graph view: script.js line 64
passes `data.relationships` through `d3.forceLink(...).id(d => d.id)`,
which replaces each link's `source`/`target` id string with the node
object itself before any hover can fire (the tick handler at lines
147-151 and the `.id` reads at lines 357 and 501-502 rely on the resolved
objects). -/
structure ResolvedLink where
  source : Organization
  target : Organization
  type : String
  description : String
deriving DecidableEq, Repr

/-- JS strict equality between a node object and an id string: `===` on
values of different types is always false. This is the comparison
script.js lines 362-364 and 371-373 perform at runtime, where
`rel.source`/`rel.target` are the resolved node objects and `nodeId`,
`d.id` are strings. -/
def strictEqObjStr (_o : Organization) (_s : String) : Bool :=
  false

/-- Per-node connectivity test of script.js `highlightConnections`
(lines 361-367 and 369-376) on the runtime data: every conjunct compares
a resolved node object to an id string. -/
def isConnectedRuntime (links : List ResolvedLink) (nodeId dId : String) : Bool :=
  links.any (fun rel =>
    (strictEqObjStr rel.source nodeId && strictEqObjStr rel.target dId) ||
    (strictEqObjStr rel.target nodeId && strictEqObjStr rel.source dId))

/-- Node opacity set by script.js `highlightConnections` (lines 361-367)
on the runtime data. -/
def runtimeNodeOpacity (links : List ResolvedLink) (nodeId : String) (d : Organization) : ℚ :=
  if isConnectedRuntime links nodeId d.id || d.id == nodeId then 1 else 0.3

/-- Link opacity set by script.js `highlightConnections` (lines 356-358):
this test reads `d.source.id`/`d.target.id` and so does work on the
resolved objects. -/
def runtimeLinkOpacity (nodeId : String) (d : ResolvedLink) : ℚ :=
  if d.source.id == nodeId || d.target.id == nodeId then 1 else 0.3

/-- Sample data for concrete witnesses. -/
def sampleOrgA : Organization :=
  Organization.mk "A" "Acme Corp" "corporation" "Ann Smith" "ann@acme.example" "555"
    "https://acme.example" "1 Main St" "Widgets" none

/-- Second sample organization, with tags. -/
def sampleOrgB : Organization :=
  Organization.mk "B" "Bloom NGO" "non_profit" "Bo Lee" "bo@bloom.example" "556"
    "https://bloom.example" "2 Oak Ave" "Gardens" (some ["green", "community"])

/-- Sample relationship joining the two sample organizations. -/
def sampleRelAB : Relationship :=
  Relationship.mk "A" "B" "partnership" "joint program"

/-- Sample dangling relationship: its target id matches no organization. -/
def sampleRelAX : Relationship :=
  Relationship.mk "A" "X999" "funding" "grant"

/-- Runtime form of the sample A-to-B link after d3.forceLink resolution. -/
def sampleLinkAB : ResolvedLink :=
  ResolvedLink.mk sampleOrgA sampleOrgB "partnership" "joint program"

/-- C4 (code bug). On the graph view's runtime data, the neighbor test of
script.js `highlightConnections` compares resolved node objects to id
strings, so it is identically false: hovering A leaves its one-hop
neighbor B — a member of `connectedNodeIds` that the claim (and the
function's own name and comments, and the working part_001 variant using
`rel.source.id`) says must get opacity 1.0 — at opacity 0.3; only the
hovered node itself gets 1.0. The link opacities and `removeHighlighting`
(nodes 1 regardless of label visibility, edges 0.6) behave as claimed. -/
theorem highlight_neighbor_bug :
    (∀ (links : List ResolvedLink) (nodeId dId : String),
      isConnectedRuntime links nodeId dId = false) ∧
    sampleOrgB.id ∈ connectedNodeIds [sampleRelAB] "A" ∧
    runtimeNodeOpacity [sampleLinkAB] "A" sampleOrgB = 0.3 ∧
    runtimeNodeOpacity [sampleLinkAB] "A" sampleOrgA = 1 ∧
    runtimeLinkOpacity "A" sampleLinkAB = 1 ∧
    (removeHighlighting true).node sampleOrgB = 1 ∧
    (removeHighlighting false).node sampleOrgB = 1 ∧
    (removeHighlighting true).link sampleRelAB = 0.6 := by
  refine ⟨?_, by decide, rfl, rfl, rfl, rfl, rfl, rfl⟩
  intro links nodeId dId
  simp [isConnectedRuntime, strictEqObjStr]

/-- Mutual-type test of script.js `showTooltip` line 260:
`d.type.includes('mutual') || d.type.includes('collaboration') || d.type.includes('partnership')`. -/
def isMutual (rel : Relationship) : Bool :=
  jsIncludes rel.type "mutual" || jsIncludes rel.type "collaboration" ||
    jsIncludes rel.type "partnership"

/-- Shape of the direction wording in the relationship tooltip. -/
inductive TooltipWording where
  | between (x y : String)
  | fromTo (x y : String)
deriving DecidableEq, Repr

/-- Endpoint label of script.js `showTooltip` (lines 266, 271-272): the
resolved organization's name, or the placeholder "Unknown" when the id
matches no organization. -/
def endpointLabel (orgs : List Organization) (id : String) : String :=
  match orgs.find? (fun o => o.id == id) with
  | some o => o.name
  | none => "Unknown"

/-- Direction wording of script.js `showTooltip` (lines 262-275):
symmetric "between X and Y" wording when the type is mutual-ish,
directional from/to wording otherwise. -/
def tooltipWording (orgs : List Organization) (rel : Relationship) : TooltipWording :=
  if isMutual rel then
    TooltipWording.between (endpointLabel orgs rel.source) (endpointLabel orgs rel.target)
  else
    TooltipWording.fromTo (endpointLabel orgs rel.source) (endpointLabel orgs rel.target)

/-- part_001 `showTooltip` (lines 196-205): the endpoint lookup has no
"Unknown" fallback and the result is dereferenced unconditionally
(`sourceOrg.name`); `none` models the TypeError thrown when the lookup
fails on a dangling id. -/
def tooltipNameP1 (orgs : List Organization) (id : String) : Option String :=
  (orgs.find? (fun o => o.id == id)).map Organization.name

/-- Entry of the detail modal's relationship list (part_000 lines 258-266). -/
structure RelatedEntry where
  org : Organization
  relationship : Relationship
  isSource : Bool
deriving DecidableEq, Repr

/-- Related entries of part_000 `showOrganizationDetails` (lines 258-266):
each relationship touching the focal id is mapped to the organization at
its other end, and entries whose organization is not found are dropped
(`.filter(item => item.org)`). -/
def relatedEntries (orgs : List Organization) (rels : List Relationship) (orgId : String) :
    List RelatedEntry :=
  (getOrganizationRelationships rels orgId).filterMap (fun rel =>
    match orgs.find? (fun o => o.id == (if rel.source == orgId then rel.target else rel.source)) with
    | some relatedOrg => some (RelatedEntry.mk relatedOrg rel (rel.source == orgId))
    | none => none)

/-- Content of the detail modal. -/
structure DetailView where
  org : Organization
  entries : List RelatedEntry
deriving DecidableEq, Repr

/-- part_000 `showOrganizationDetails` (lines 250-331), pure content:
`none` models the early `if (!org) return;`, where no modal is opened and
nothing is mutated. -/
def showOrganizationDetails (orgs : List Organization) (rels : List Relationship)
    (orgId : String) : Option DetailView :=
  match orgs.find? (fun o => o.id == orgId) with
  | none => none
  | some org => some (DetailView.mk org (relatedEntries orgs rels orgId))

theorem relatedEntries_mem (orgs : List Organization) (rels : List Relationship)
    (orgId : String) (e : RelatedEntry) (he : e ∈ relatedEntries orgs rels orgId) :
    e.relationship ∈ getOrganizationRelationships rels orgId ∧
    e.isSource = (e.relationship.source == orgId) ∧
    orgs.find? (fun o => o.id ==
        (if e.relationship.source == orgId then e.relationship.target
         else e.relationship.source)) = some e.org := by
  rw [relatedEntries, List.mem_filterMap] at he
  obtain ⟨rel, hmem, hf⟩ := he
  rcases hfind : orgs.find? (fun o => o.id ==
      (if rel.source == orgId then rel.target else rel.source)) with _ | ro
  · rw [hfind] at hf
    exact absurd hf (by simp)
  · rw [hfind] at hf
    have he2 : RelatedEntry.mk ro rel (rel.source == orgId) = e := by
      simpa using hf
    subst he2
    exact ⟨hmem, rfl, hfind⟩

theorem find?_id_eq_none (orgs : List Organization) (id : String)
    (h : ∀ o ∈ orgs, o.id ≠ id) :
    orgs.find? (fun o => o.id == id) = none := by
  rcases hfind : orgs.find? (fun o => o.id == id) with _ | o
  · exact hfind
  · have hp : (o.id == id) = true :=
      @List.find?_some Organization (fun o => o.id == id) o orgs hfind
    exact absurd (beq_iff_eq.mp hp) (h o (List.mem_of_find?_eq_some hfind))

/-- C5. For each entry of a focal organization's related entries, the
entry is outgoing (`isSource`, displayed "To") exactly when the focal id
is the relationship's source; and a relationship is classified mutual —
replacing the directional wording with symmetric "between" wording —
exactly when its type contains one of the substrings "mutual",
"collaboration", "partnership". -/
theorem direction_mutual_spec (orgs : List Organization) (rels : List Relationship)
    (orgId : String) (e : RelatedEntry) (rel : Relationship)
    (he : e ∈ relatedEntries orgs rels orgId) :
    (e.isSource = true ↔ e.relationship.source = orgId) ∧
    (isMutual rel = true ↔
      ("mutual".toList <:+: rel.type.toList ∨
       "collaboration".toList <:+: rel.type.toList ∨
       "partnership".toList <:+: rel.type.toList)) ∧
    (tooltipWording orgs rel =
        TooltipWording.between (endpointLabel orgs rel.source) (endpointLabel orgs rel.target) ↔
      isMutual rel = true) ∧
    (isMutual rel = false →
      tooltipWording orgs rel =
        TooltipWording.fromTo (endpointLabel orgs rel.source) (endpointLabel orgs rel.target)) := by
  refine ⟨?_, ?_, ?_, ?_⟩
  · rw [(relatedEntries_mem orgs rels orgId e he).2.1, beq_iff_eq]
  · unfold isMutual jsIncludes
    simp only [Bool.or_eq_true, decide_eq_true_eq]
    tauto
  · unfold tooltipWording
    by_cases h : isMutual rel = true
    · simp [h]
    · simp [h]
  · intro h
    unfold tooltipWording
    rw [if_neg (by rw [h]; exact Bool.false_ne_true)]

/-- C5 witness: with organizations A, B and the A-to-B partnership, the
entry seen from focal A is outgoing and the relationship is mutual. -/
theorem direction_mutual_spec_witness :
    RelatedEntry.mk sampleOrgB sampleRelAB true ∈
      relatedEntries [sampleOrgA, sampleOrgB] [sampleRelAB] "A" ∧
    (RelatedEntry.mk sampleOrgB sampleRelAB true).isSource = true ∧
    isMutual sampleRelAB = true := by
  have h := direction_mutual_spec [sampleOrgA, sampleOrgB] [sampleRelAB] "A"
    (RelatedEntry.mk sampleOrgB sampleRelAB true) sampleRelAB (by decide)
  exact ⟨by decide, h.1.mpr (by decide), (h.2.1).mpr (Or.inr (Or.inr (by decide)))⟩

/-- C6 counterexample: with organizations [A] and the dangling
relationship A to X999, the part_001 graph-view tooltip cited by the claim
does not render the placeholder "Unknown" for the missing endpoint — its
unguarded lookup fails (`none`, the thrown TypeError). -/
theorem dangling_tooltip_cex :
    tooltipNameP1 [sampleOrgA] sampleRelAX.target = none ∧
    tooltipNameP1 [sampleOrgA] sampleRelAX.target ≠ some "Unknown" := by
  exact ⟨rfl, by decide⟩

/-- C6 (amended). For an id absent from the organizations: the list view
excludes every relationship whose non-focal endpoint is that id from the
related entries; the script.js graph view renders the placeholder
"Unknown" for that endpoint without failing; the older duplicated part_001
variant instead fails the endpoint lookup rather than showing "Unknown". -/
theorem dangling_reference_amended (orgs : List Organization) (rels : List Relationship)
    (orgId id : String) (e : RelatedEntry) (h : ∀ o ∈ orgs, o.id ≠ id) :
    endpointLabel orgs id = "Unknown" ∧
    tooltipNameP1 orgs id = none ∧
    (e ∈ relatedEntries orgs rels orgId →
      (if e.relationship.source == orgId then e.relationship.target
       else e.relationship.source) ≠ id) := by
  refine ⟨?_, ?_, ?_⟩
  · rw [endpointLabel, find?_id_eq_none orgs id h]
  · rw [tooltipNameP1, find?_id_eq_none orgs id h]
    rfl
  · intro he hid
    have hfind := (relatedEntries_mem orgs rels orgId e he).2.2
    rw [hid, find?_id_eq_none orgs id h] at hfind
    exact Option.noConfusion hfind

/-- C6 witness: concrete dangling target X999 is excluded from A's related
entries, while the script.js tooltip shows "Unknown" and part_001 fails. -/
theorem dangling_reference_amended_witness :
    (∀ o ∈ [sampleOrgA], o.id ≠ "X999") ∧
    endpointLabel [sampleOrgA] "X999" = "Unknown" ∧
    tooltipNameP1 [sampleOrgA] "X999" = none ∧
    relatedEntries [sampleOrgA] [sampleRelAX] "A" = [] := by
  have h := dangling_reference_amended [sampleOrgA] [sampleRelAX] "A" "X999"
    (RelatedEntry.mk sampleOrgA sampleRelAX true) (by decide)
  exact ⟨by decide, h.1, h.2.1, by decide⟩

/-- C10. When the id matches no loaded organization,
`showOrganizationDetails` returns without content: no modal is opened and
no state is produced (the early `if (!org) return;`). -/
theorem unknown_id_noop_spec (orgs : List Organization) (rels : List Relationship)
    (orgId : String) (h : ∀ o ∈ orgs, o.id ≠ orgId) :
    showOrganizationDetails orgs rels orgId = none := by
  rw [showOrganizationDetails, find?_id_eq_none orgs orgId h]

/-- C10 witness: a concrete unknown id yields no detail view. -/
theorem unknown_id_noop_spec_witness :
    (∀ o ∈ [sampleOrgA], o.id ≠ "Z") ∧
    showOrganizationDetails [sampleOrgA] [] "Z" = none :=
  ⟨by decide, unknown_id_noop_spec [sampleOrgA] [] "Z" (by decide)⟩

/-- script.js `filterNodes` (lines 463-476): organizations matching the
search term, with the same search predicate as the list view. -/
def filterNodes (orgs : List Organization) (term : String) : List Organization :=
  orgs.filter (fun org => matchesSearch term org)

/-- Node opacity set by script.js `filterNodes` (lines 489-491): 1 when
the node's id is among the filtered organizations, 0.3 otherwise. -/
def searchNodeOpacity (orgs : List Organization) (term : String) (d : Organization) : ℚ :=
  if (filterNodes orgs term).any (fun o => o.id == d.id) then 1 else 0.3

/-- Link opacity set by script.js `filterNodes` (lines 500-504): 1 when
both endpoints are among the filtered organizations, 0.1 otherwise. -/
def searchLinkOpacity (orgs : List Organization) (term : String) (rel : Relationship) : ℚ :=
  if (filterNodes orgs term).any (fun o => o.id == rel.source) &&
      (filterNodes orgs term).any (fun o => o.id == rel.target) then 1 else 0.1

/-- Label opacity as a function of the visibility flag (script.js lines
135 and 216-217): `showLabels ? 1 : 0`. -/
def labelOpacity (labelsVisible : Bool) : ℚ :=
  if labelsVisible then 1 else 0

/-- Toggle-labels handler (script.js lines 214-218, part_001 lines
177-181): flips `showLabels` and re-styles only the label opacity. -/
def toggleLabels (st : ViewState) : ViewState :=
  { st with showLabels := !st.showLabels }

/-- C8. `toggleLabels` flips only the label-visibility flag: the search
term, type filter and sort key are unchanged, the filtered set of
organizations (in either view) is unchanged, node and edge opacities
derived from filtering are unchanged, and only the label opacity flips
between 1 (visible) and 0 (hidden). -/
theorem toggleLabels_frame_spec (st : ViewState) (orgs : List Organization)
    (org : Organization) (rel : Relationship) :
    (toggleLabels st).showLabels = !st.showLabels ∧
    (toggleLabels st).searchTerm = st.searchTerm ∧
    (toggleLabels st).typeFilter = st.typeFilter ∧
    (toggleLabels st).sortBy = st.sortBy ∧
    filterOrgs orgs (toggleLabels st) = filterOrgs orgs st ∧
    filterAndRender orgs (toggleLabels st) = filterAndRender orgs st ∧
    filterNodes orgs (toggleLabels st).searchTerm = filterNodes orgs st.searchTerm ∧
    searchNodeOpacity orgs (toggleLabels st).searchTerm org =
      searchNodeOpacity orgs st.searchTerm org ∧
    searchLinkOpacity orgs (toggleLabels st).searchTerm rel =
      searchLinkOpacity orgs st.searchTerm rel ∧
    labelOpacity (toggleLabels st).showLabels = (if st.showLabels then 0 else 1) := by
  refine ⟨rfl, rfl, rfl, rfl, rfl, rfl, rfl, rfl, rfl, ?_⟩
  cases h : st.showLabels <;> simp [toggleLabels, labelOpacity, h]

/-- colorScheme of script.js (lines 11-19). -/
def colorSchemeScript : List (String × String) :=
  [("corporation", "#3498db"), ("education", "#ff5b00"), ("non_profit", "#2ecc71"),
   ("government_agency", "#808080"), ("small_business", "#40E0D0"),
   ("investor_funder", "#9b59b6"), ("category", "#E4a0f7")]

/-- colorScheme of part_000 (lines 10-15). -/
def colorSchemeP0 : List (String × String) :=
  [("corporation", "#e74c3c"), ("higher_ed", "#3498db"), ("non_profit", "#2ecc71"),
   ("government_agency", "#f39c12")]

/-- colorScheme of part_001 (lines 10-16). -/
def colorSchemeP1 : List (String × String) :=
  [("corporation", "#e74c3c"), ("higher_ed", "#3498db"), ("non_profit", "#2ecc71"),
   ("government_agency", "#f39c12"), ("international_org", "#9b59b6")]

/-- JS `colorScheme[d.type] || '#95a5a6'` (script.js line 103, part_000
line 169, part_001 line 91): property lookup with the fixed fallback; the
`||` would also replace an empty-string entry (JS falsiness), which no
scheme contains. -/
def colorFor (scheme : List (String × String)) (t : String) : String :=
  match scheme.lookup t with
  | some c => if c == "" then "#95a5a6" else c
  | none => "#95a5a6"

theorem colorFor_cases (scheme : List (String × String)) (t : String)
    (hne : ∀ p ∈ scheme, p.2 ≠ "") :
    (t, colorFor scheme t) ∈ scheme ∨
      (colorFor scheme t = "#95a5a6" ∧ ∀ p ∈ scheme, p.1 ≠ t) := by
  induction scheme with
  | nil => exact Or.inr ⟨rfl, by simp⟩
  | cons hd tl ih =>
    rcases hd with ⟨k, c⟩
    by_cases ht : t = k
    · left
      have hc : c ≠ "" := hne (k, c) (List.mem_cons_self _ _)
      have : colorFor ((k, c) :: tl) t = c := by
        rw [colorFor, List.lookup_cons]
        simp [ht, hc]
      rw [this, ht]
      exact List.mem_cons_self _ _
    · have hstep : colorFor ((k, c) :: tl) t = colorFor tl t := by
        rw [colorFor, colorFor, List.lookup_cons,
          show (t == k) = false from beq_eq_false_iff_ne.mpr ht]
      have hne' : ∀ p ∈ tl, p.2 ≠ "" := fun p hp => hne p (List.mem_cons_of_mem _ hp)
      rcases ih hne' with hin | ⟨hfb, hall⟩
      · left
        rw [hstep]
        exact List.mem_cons_of_mem _ hin
      · right
        refine ⟨by rw [hstep]; exact hfb, ?_⟩
        intro p hp
        rcases List.mem_cons.mp hp with rfl | hp'
        · exact fun hk => ht hk.symm
        · exact hall p hp'

/-- C9. For each of the three color schemes in the source, the color
assigned to an organization's node or card is the scheme's entry for its
type when the type is one of the enumerated keys, and the fixed fallback
"#95a5a6" otherwise; the lookup is total, always yielding one of these
defined strings. -/
theorem color_total_spec (t : String) :
    ((t, colorFor colorSchemeScript t) ∈ colorSchemeScript ∨
      (colorFor colorSchemeScript t = "#95a5a6" ∧ ∀ p ∈ colorSchemeScript, p.1 ≠ t)) ∧
    ((t, colorFor colorSchemeP0 t) ∈ colorSchemeP0 ∨
      (colorFor colorSchemeP0 t = "#95a5a6" ∧ ∀ p ∈ colorSchemeP0, p.1 ≠ t)) ∧
    ((t, colorFor colorSchemeP1 t) ∈ colorSchemeP1 ∨
      (colorFor colorSchemeP1 t = "#95a5a6" ∧ ∀ p ∈ colorSchemeP1, p.1 ≠ t)) :=
  ⟨colorFor_cases colorSchemeScript t (by decide),
   colorFor_cases colorSchemeP0 t (by decide),
   colorFor_cases colorSchemeP1 t (by decide)⟩

/-- C2 witness: at a concrete list the name-keyed sort keeps the
organizations named "Acme Corp" in their input order. -/
theorem sort_locale_stable_spec_witness :
    (sortOrgs "name" [sampleOrgB, sampleOrgA]).filter (fun o => o.name == "Acme Corp") =
      [sampleOrgB, sampleOrgA].filter (fun o => o.name == "Acme Corp") ∧
    [sampleOrgB, sampleOrgA].filter (fun o => o.name == "Acme Corp") = [sampleOrgA] :=
  ⟨(sort_locale_stable_spec [sampleOrgB, sampleOrgA] "Acme Corp" sampleOrgA sampleOrgB).1.2,
   by decide⟩

/-- C3 witness: the A-to-B relationship is indexed under its source id. -/
theorem relationshipsOf_spec_witness :
    sampleRelAB ∈ getOrganizationRelationships [sampleRelAB] "A" :=
  ((relationshipsOf_spec [sampleRelAB] "A" sampleRelAB).1).mpr
    ⟨by decide, Or.inl (by decide)⟩

/-- C7 witness: clearing a fully non-default view state resets all three
fields and the engine returns a permutation of all organizations. -/
theorem clearFilters_spec_witness :
    (clearFilters (ViewState.mk "zzz" "corporation" "type" false)).searchTerm = "" ∧
    (clearFilters (ViewState.mk "zzz" "corporation" "type" false)).typeFilter = "" ∧
    (clearFilters (ViewState.mk "zzz" "corporation" "type" false)).sortBy = "name" ∧
    (filterAndRender [sampleOrgB, sampleOrgA]
      (clearFilters (ViewState.mk "zzz" "corporation" "type" false))).Perm
      [sampleOrgB, sampleOrgA] := by
  have h := clearFilters_spec [sampleOrgB, sampleOrgA]
    (ViewState.mk "zzz" "corporation" "type" false)
  exact ⟨h.1, h.2.1, h.2.2.1, h.2.2.2.1⟩

/-- C8 witness: toggling labels on a concrete state with visible labels
drops the label opacity to 0 while the state's filter fields are kept. -/
theorem toggleLabels_frame_spec_witness :
    (toggleLabels (ViewState.mk "ab" "non_profit" "type" true)).searchTerm = "ab" ∧
    labelOpacity (toggleLabels (ViewState.mk "ab" "non_profit" "type" true)).showLabels = 0 := by
  have h := toggleLabels_frame_spec (ViewState.mk "ab" "non_profit" "type" true)
    [sampleOrgA] sampleOrgA sampleRelAB
  refine ⟨h.2.1, ?_⟩
  rw [h.2.2.2.2.2.2.2.2.2]
  rfl

/-- C9 witness: a key of the script.js scheme resolves to its entry and a
non-key resolves to the fallback. -/
theorem color_total_spec_witness :
    colorFor colorSchemeScript "corporation" = "#3498db" ∧
    colorFor colorSchemeScript "unlisted_kind" = "#95a5a6" ∧
    (("corporation", colorFor colorSchemeScript "corporation") ∈ colorSchemeScript ∨
      (colorFor colorSchemeScript "corporation" = "#95a5a6" ∧
        ∀ p ∈ colorSchemeScript, p.1 ≠ "corporation")) :=
  ⟨by decide, by decide, (color_total_spec "corporation").1⟩

end EcoViz
